import Mathlib

/-!
Shallow embedding of `src/src/RegisterForm.jsx` (a React registration form).

The component keeps two pieces of state:
  * `formData` — a JS object initially `{username: "", email: "", password: ""}`,
    updated by `handleChange` with the object-spread idiom
    `{...prevData, [name]: value}`;
  * `isRegistered` — a boolean, initially `false`, set to `true` by `handleSubmit`.

A JS object is modelled as an association list from string keys to string
values, keeping JS key-ordering semantics: spreading and then assigning a
computed key overwrites an existing key in place and appends a fresh key at
the end.  The render function of the component is modelled as a tree of DOM
nodes mirroring the returned JSX, and `handleSubmit`'s body is additionally
modelled as the ordered trace of the effects it performs.
-/

/-- A JS object with string-valued properties: an association list whose keys
are unique in any state reachable from the initial form data. -/
def JsObject : Type := List (String × String)

instance : DecidableEq JsObject := by
  unfold JsObject
  infer_instance

/-- Property lookup `obj[k]`: first binding of the key, if any. -/
def getProp (m : JsObject) (k : String) : Option String :=
  match m with
  | [] => none
  | (k', v) :: rest => if k' = k then some v else getProp rest k

/-- The object-spread-with-computed-key idiom `{...prevData, [name]: value}`:
an existing key is overwritten in place, a fresh key is appended at the end. -/
def setProp (m : JsObject) (k v : String) : JsObject :=
  match m with
  | [] => [(k, v)]
  | (k', v') :: rest =>
      if k' = k then (k, v) :: rest else (k', v') :: setProp rest k v

/-- Reading a tracked field as the string shown in an input's `value`
attribute (`formData.username` and friends; total on reachable states, where
the three tracked keys are always present). -/
def getField (m : JsObject) (k : String) : String :=
  (getProp m k).getD ""

/-- The initial `formData` object of `useState` in `RegisterForm.jsx`:
`{username: "", email: "", password: ""}`. -/
def initialFormData : JsObject :=
  [("username", ""), ("email", ""), ("password", "")]

/-- The three field names wired to inputs in the JSX. -/
def trackedNames : List String := ["username", "email", "password"]

/-- The two `useState` hooks of `RegisterForm`, taken together. -/
structure SessionState where
  isRegistered : Bool
  formData : JsObject
deriving DecidableEq

/-- The initial component state: not registered, all fields empty. -/
def initialState : SessionState :=
  { isRegistered := false, formData := initialFormData }

/-- `handleChange`: reads `name` and `value` from the event target and replaces
`formData` with `{...prevData, [name]: value}`.  It does not touch
`isRegistered`. -/
def handleChange (name value : String) (s : SessionState) : SessionState :=
  { s with formData := setProp s.formData name value }

/-- `handleSubmit`'s effect on the component state: sets `isRegistered` to
`true` and leaves `formData` alone (the `console.log` is a pure observation). -/
def handleSubmit (s : SessionState) : SessionState :=
  { s with isRegistered := true }

/-- The observable effects `handleSubmit` performs, in order. -/
inductive SubmitEvent where
  | preventDefault : SubmitEvent
  | consoleLog (msg : String) (data : JsObject) : SubmitEvent
  | setRegistered (b : Bool) : SubmitEvent
deriving DecidableEq

/-- The ordered effect trace of `handleSubmit(e)`: `e.preventDefault()`, then
`console.log("Form submitted with:", formData)`, then `setIsRegistered(true)`. -/
def handleSubmitTrace (s : SessionState) : List SubmitEvent :=
  [SubmitEvent.preventDefault,
   SubmitEvent.consoleLog "Form submitted with:" s.formData,
   SubmitEvent.setRegistered true]

/-- A rendered DOM tree: text nodes and elements with string attributes. -/
inductive Node where
  | text (s : String) : Node
  | elem (tag : String) (attrs : List (String × String)) (children : List Node) : Node

/-- One labeled input block of the JSX: a `div` holding a `label`, a line
break and an `input` whose `id`, `name` and `placeholder` are fixed and whose
`value` is bound to the corresponding field. -/
def labeledInput (ty label nm value : String) : Node :=
  Node.elem "div" []
    [Node.elem "label" [("htmlFor", nm)] [Node.text label],
     Node.elem "br" [] [],
     Node.elem "input"
       [("type", ty), ("id", nm), ("name", nm), ("placeholder", nm),
        ("value", value), ("required", "true")] []]

/-- The static confirmation message returned when `isRegistered` is true. -/
def confirmationNode : Node :=
  Node.elem "h4" [] [Node.text "Registration successful! Welcome aboard!"]

/-- The render function of `RegisterForm`: the early return of the `h4`
confirmation when `isRegistered`, otherwise the card with the form, its three
labeled inputs, a stray text node, a line break and the Register button. -/
def render (s : SessionState) : Node :=
  if s.isRegistered then
    confirmationNode
  else
    Node.elem "div" [("className", "card")]
      [Node.elem "form" []
        [labeledInput "text" "Username" "username" (getField s.formData "username"),
         labeledInput "email" "Email" "email" (getField s.formData "email"),
         labeledInput "password" "Password" "password" (getField s.formData "password"),
         Node.text " ",
         Node.elem "br" [] [],
         Node.elem "button" [("type", "submit")] [Node.text "Register"]]]

/-- All attribute lists of elements with the given tag, in document order. -/
def elemsByTag (tag : String) : Node → List (List (String × String))
  | Node.text _ => []
  | Node.elem t attrs children =>
      (if t = tag then [attrs] else []) ++ childElems tag children
where
  /-- Helper traversing a list of children. -/
  childElems (tag : String) : List Node → List (List (String × String))
    | [] => []
    | c :: cs => elemsByTag tag c ++ childElems tag cs

/-- All text-node contents of a tree, in document order. -/
def textsOf : Node → List String
  | Node.text s => [s]
  | Node.elem _ _ children => childTexts children
where
  /-- Helper traversing a list of children. -/
  childTexts : List Node → List String
    | [] => []
    | c :: cs => textsOf c ++ childTexts cs

/-- The operations the component exposes to the user: typing into one of the
inputs (firing `handleChange`) and submitting the form (firing
`handleSubmit`). -/
inductive FormOp where
  | update (name value : String) : FormOp
  | submit : FormOp

/-- One user interaction applied to the session state. -/
def applyOp : FormOp → SessionState → SessionState
  | FormOp.update n v, s => handleChange n v s
  | FormOp.submit, s => handleSubmit s

/-- A whole interaction sequence applied left to right. -/
def applyOps (ops : List FormOp) (s : SessionState) : SessionState :=
  ops.foldl (fun t op => applyOp op t) s

/-- Recogniser for the `e.preventDefault()` effect. -/
def isPreventDefault : SubmitEvent → Bool
  | SubmitEvent.preventDefault => true
  | _ => false

/-- Recogniser for the `console.log` effect. -/
def isConsoleLog : SubmitEvent → Bool
  | SubmitEvent.consoleLog _ _ => true
  | _ => false

/-- Recogniser for the `setIsRegistered` effect. -/
def isSetRegistered : SubmitEvent → Bool
  | SubmitEvent.setRegistered _ => true
  | _ => false

/-! Basic lemmas about the object-update idiom and the state machine. -/

theorem getProp_setProp_same (m : JsObject) (k v : String) :
    getProp (setProp m k v) k = some v := by
  induction m with
  | nil => simp [setProp, getProp]
  | cons hd tl ih =>
      obtain ⟨k', v'⟩ := hd
      by_cases h : k' = k
      · simp [setProp, getProp, h]
      · simp [setProp, getProp, h, ih]

theorem getProp_setProp_ne (m : JsObject) (k v k₀ : String) (h : k₀ ≠ k) :
    getProp (setProp m k v) k₀ = getProp m k₀ := by
  have h' : ¬k = k₀ := fun hc => h hc.symm
  induction m with
  | nil => simp [setProp, getProp, h']
  | cons hd tl ih =>
      obtain ⟨k', v'⟩ := hd
      by_cases hk : k' = k
      · subst hk
        simp [setProp, getProp, h']
      · simp [setProp, getProp, hk, ih]

theorem isRegistered_applyOp (op : FormOp) (s : SessionState)
    (h : s.isRegistered = true) : (applyOp op s).isRegistered = true := by
  cases op with
  | update n v => simpa [applyOp, handleChange] using h
  | submit => rfl

theorem isRegistered_applyOps (ops : List FormOp) (s : SessionState)
    (h : s.isRegistered = true) : (applyOps ops s).isRegistered = true := by
  induction ops generalizing s with
  | nil => simpa [applyOps] using h
  | cons op rest ih =>
      have h1 : (applyOp op s).isRegistered = true := isRegistered_applyOp op s h
      simpa [applyOps, List.foldl] using ih (applyOp op s) h1

theorem render_registered (s : SessionState) (h : s.isRegistered = true) :
    render s = confirmationNode := by
  simp [render, h]

/-! The claims. -/

/-- C1: for every session state and every `updateField(name, value)` call with
`name` one of `username`, `email`, `password` and an arbitrary value, the two
tracked fields other than the named one are unchanged by the call. -/
theorem claim1_updateField_frame (s : SessionState) (name value : String)
    (hname : name ∈ trackedNames) (k : String) (hk : k ∈ trackedNames)
    (hne : k ≠ name) :
    getField (handleChange name value s).formData k = getField s.formData k := by
  simp [handleChange, getField, getProp_setProp_ne s.formData name value k hne]

/-- Witness for C1 at a concrete call: updating `username` on the initial
state leaves `email` as it was. -/
theorem claim1_updateField_frame_witness :
    getField (handleChange "username" "bob" initialState).formData "email" =
      getField initialState.formData "email" :=
  claim1_updateField_frame initialState "username" "bob" (by decide) "email"
    (by decide) (by decide)

/-- C2: for every `name` outside `{username, email, password}` and every
value, `updateField(name, value)` still stores the value under that name in
the state record, totally and without rejection, while the three tracked
fields keep their prior values. -/
theorem claim2_updateField_passthrough (s : SessionState) (name value : String)
    (hname : name ∉ trackedNames) :
    getProp (handleChange name value s).formData name = some value ∧
    ∀ k ∈ trackedNames,
      getField (handleChange name value s).formData k = getField s.formData k := by
  constructor
  · simp [handleChange, getProp_setProp_same]
  · intro k hk
    have hne : k ≠ name := fun hc => hname (hc ▸ hk)
    simp [handleChange, getField, getProp_setProp_ne s.formData name value k hne]

/-- Witness for C2 at a concrete call: an untracked name `nickname` is stored
and the tracked fields survive. -/
theorem claim2_updateField_passthrough_witness :
    getProp (handleChange "nickname" "bb" initialState).formData "nickname" =
        some "bb" ∧
    getField (handleChange "nickname" "bb" initialState).formData "username" =
      getField initialState.formData "username" :=
  ⟨(claim2_updateField_passthrough initialState "nickname" "bb" (by decide)).1,
   (claim2_updateField_passthrough initialState "nickname" "bb" (by decide)).2
     "username" (by decide)⟩

/-- C3: `submit()` is idempotent after its first call: on any state already
registered, submitting again keeps `registered` true and leaves all three
tracked field values unchanged. -/
theorem claim3_submit_idempotent (s : SessionState) (h : s.isRegistered = true) :
    (handleSubmit s).isRegistered = true ∧
    ∀ k ∈ trackedNames, getField (handleSubmit s).formData k = getField s.formData k :=
  ⟨rfl, fun _ _ => rfl⟩

/-- Witness for C3 on a concrete registered state. -/
theorem claim3_submit_idempotent_witness :
    (handleSubmit { isRegistered := true, formData := initialFormData }).isRegistered
        = true ∧
    getField (handleSubmit
        { isRegistered := true, formData := initialFormData }).formData "password" =
      getField initialFormData "password" :=
  ⟨(claim3_submit_idempotent
      { isRegistered := true, formData := initialFormData } rfl).1,
   (claim3_submit_idempotent
      { isRegistered := true, formData := initialFormData } rfl).2
     "password" (by decide)⟩

/-- C4: the registration flag is one-way: from any registered state, every
exposed operation (any field update, or submit) yields a registered state. -/
theorem claim4_registered_one_way (s : SessionState) (h : s.isRegistered = true)
    (op : FormOp) : (applyOp op s).isRegistered = true :=
  isRegistered_applyOp op s h

/-- Witness for C4 on a concrete registered state and a concrete operation. -/
theorem claim4_registered_one_way_witness :
    (applyOp (FormOp.update "username" "eve")
        { isRegistered := true, formData := initialFormData }).isRegistered = true :=
  claim4_registered_one_way { isRegistered := true, formData := initialFormData } rfl
    (FormOp.update "username" "eve")

/-- C5: for every form-data record, the registered view is exactly the static
confirmation message: no inputs, no button, and the only rendered text is the
fixed success string, independent of the record's contents. -/
theorem claim5_registered_render_static (fd : JsObject) :
    render { isRegistered := true, formData := fd } = confirmationNode ∧
    elemsByTag "input" (render { isRegistered := true, formData := fd }) = [] ∧
    elemsByTag "button" (render { isRegistered := true, formData := fd }) = [] ∧
    textsOf (render { isRegistered := true, formData := fd }) =
      ["Registration successful! Welcome aboard!"] :=
  ⟨rfl, rfl, rfl, rfl⟩

/-- The scenario state of C6: the three updates then the submission, starting
from the initial state. -/
def scenarioFinal : SessionState :=
  applyOps
    [FormOp.update "username" "bob", FormOp.update "email" "bob@x.com",
     FormOp.update "password" "secret", FormOp.submit] initialState

/-- C6: the scenario `updateField("username","bob")`,
`updateField("email","bob@x.com")`, `updateField("password","secret")`,
`submit()` from the initial state ends with exactly the expected record and
the flag set, and every state reachable from there by further operations
renders only the confirmation message. -/
theorem claim6_scenario :
    scenarioFinal.formData =
      [("username", "bob"), ("email", "bob@x.com"), ("password", "secret")] ∧
    scenarioFinal.isRegistered = true ∧
    ∀ ops : List FormOp, render (applyOps ops scenarioFinal) = confirmationNode :=
  ⟨by decide, rfl, fun ops =>
    render_registered (applyOps ops scenarioFinal)
      (isRegistered_applyOps ops scenarioFinal rfl)⟩

/-- C7: for every form-data record, the unregistered view holds exactly three
labeled inputs named `username`, `email`, `password`, each with a placeholder
equal to its name, a required constraint, and a value bound to the matching
field, one submit button whose rendered label is `Register`, and no
confirmation text; on the initial record all three inputs are empty-valued. -/
theorem claim7_editing_render_form (fd : JsObject) :
    elemsByTag "input" (render { isRegistered := false, formData := fd }) =
      [[("type", "text"), ("id", "username"), ("name", "username"),
        ("placeholder", "username"), ("value", getField fd "username"),
        ("required", "true")],
       [("type", "email"), ("id", "email"), ("name", "email"),
        ("placeholder", "email"), ("value", getField fd "email"),
        ("required", "true")],
       [("type", "password"), ("id", "password"), ("name", "password"),
        ("placeholder", "password"), ("value", getField fd "password"),
        ("required", "true")]] ∧
    elemsByTag "label" (render { isRegistered := false, formData := fd }) =
      [[("htmlFor", "username")], [("htmlFor", "email")], [("htmlFor", "password")]] ∧
    elemsByTag "button" (render { isRegistered := false, formData := fd }) =
      [[("type", "submit")]] ∧
    textsOf (render { isRegistered := false, formData := fd }) =
      ["Username", "Email", "Password", " ", "Register"] ∧
    "Registration successful! Welcome aboard!" ∉
      textsOf (render { isRegistered := false, formData := fd }) ∧
    (elemsByTag "input" (render initialState)).map (fun a => getProp a "value") =
      [some "", some "", some ""] := by
  refine ⟨rfl, rfl, rfl, rfl, ?_, by decide⟩
  intro hmem
  simp only [show textsOf (render { isRegistered := false, formData := fd }) =
      ["Username", "Email", "Password", " ", "Register"] from rfl] at hmem
  revert hmem
  decide

/-- C8: in the submission handler the prevent-default effect comes strictly
before both the diagnostic log of the field record and the setting of the
registration flag, on every invocation. -/
theorem claim8_preventDefault_first (s : SessionState) :
    (handleSubmitTrace s).findIdx isPreventDefault <
      (handleSubmitTrace s).findIdx isConsoleLog ∧
    (handleSubmitTrace s).findIdx isPreventDefault <
      (handleSubmitTrace s).findIdx isSetRegistered := by
  constructor
  · show (0 : Nat) < 1
    decide
  · show (0 : Nat) < 2
    decide

/-- C9: rendering is deterministic, a function of the session state alone:
states with equal fields and equal flag render equal output. -/
theorem claim9_render_deterministic (s t : SessionState)
    (hflag : s.isRegistered = t.isRegistered) (hfd : s.formData = t.formData) :
    render s = render t := by
  have hst : s = t := by
    cases s
    cases t
    simp_all
  rw [hst]

/-- Witness for C9 at two definitionally equal concrete states. -/
theorem claim9_render_deterministic_witness :
    render initialState = render { isRegistered := false, formData := initialFormData } :=
  claim9_render_deterministic initialState
    { isRegistered := false, formData := initialFormData } rfl rfl

/-- C10: each operation touches only its own piece of state: any field update
leaves the flag exactly as it was, and submit (first call included) leaves the
whole field record exactly as it was. -/
theorem claim10_frame_separation (s : SessionState) (name value : String) :
    (handleChange name value s).isRegistered = s.isRegistered ∧
    (handleSubmit s).formData = s.formData :=
  ⟨rfl, rfl⟩
